import Mathlib

/-!
Verification of the GlogApp python backend (src/python-backend/app.py):
a CRUD HTTP API over a single relational table of items, backed by
PostgreSQL through a pooled connection.

The shallow embedding models the items table as an explicit list of rows
together with the id sequence the database uses to generate fresh ids.
Each request handler from app.py is embedded as a pure function from the
database state (and the request parameters) to the handler result, the
database state after the request, and the trace of database events
(statement executions and commits) the handler issued, in order.
-/

namespace GlogApp

/-- A row of the items table, also the Item response model of app.py
(fields id, name, description; description is nullable). -/
structure Item where
  id : Int
  name : String
  description : Option String
deriving DecidableEq, Repr

/-- The ItemCreate request model of app.py (name required, description
optional with declared default None, lines 73-78). -/
structure ItemCreate where
  name : String
  description : Option String
deriving DecidableEq, Repr

/-- A fastapi HTTPException as raised by app.py. -/
structure HTTPException where
  status_code : Nat
  detail : String
deriving DecidableEq, Repr

/-- The delete handler success body, a JSON object with one message field. -/
structure MessageBody where
  message : String
deriving DecidableEq, Repr

/-- One database interaction issued by a handler: executing a SQL
statement, or an explicit commit. -/
inductive DBEvent where
  | execSQL (sql : String)
  | commit
deriving DecidableEq, Repr

/-- State of the items table: the rows in table order, plus the next id
the generated primary key sequence will assign. -/
structure DBState where
  rows : List Item
  nextId : Int
deriving DecidableEq, Repr

/-- The state of a freshly created items table: no rows, id sequence at 1. -/
def initialState : DBState := ⟨[], 1⟩

def selectAllSQL : String := "SELECT id, name, description FROM items"

def selectOneSQL : String := "SELECT id, name, description FROM items WHERE id = %s"

def insertSQL : String :=
  "INSERT INTO items (name, description) VALUES (%s, %s) RETURNING id, name, description"

def updateSQL : String :=
  "UPDATE items SET name = %s, description = %s WHERE id = %s RETURNING id, name, description"

def deleteSQL : String := "DELETE FROM items WHERE id = %s"

deriving instance DecidableEq for Except

/-- Outcome of a handler that may change the table: the handler result
(or the HTTPException it raised), the table state after the request,
and the trace of database events issued before returning or raising. -/
structure Outcome (α : Type) where
  result : Except HTTPException α
  state : DBState
  events : List DBEvent
deriving DecidableEq

/-- read_items (app.py lines 88-95): SELECT all rows, return them; no
commit is issued. -/
def read_items (s : DBState) : List Item × List DBEvent :=
  (s.rows, [DBEvent.execSQL selectAllSQL])

/-- read_item (app.py lines 97-110): SELECT the row WHERE id = item_id,
fetchone; if no row, raise 404 "Item not found"; no commit is issued. -/
def read_item (s : DBState) (item_id : Int) :
    Except HTTPException Item × List DBEvent :=
  match s.rows.find? (fun r => r.id == item_id) with
  | none => (Except.error ⟨404, "Item not found"⟩, [DBEvent.execSQL selectOneSQL])
  | some r => (Except.ok r, [DBEvent.execSQL selectOneSQL])

/-- The row the INSERT of create_item produces: the id generated by the
database sequence, and the name and description bound from the request. -/
def createdRow (s : DBState) (item : ItemCreate) : Item :=
  ⟨s.nextId, item.name, item.description⟩

/-- create_item (app.py lines 112-124): INSERT the bound name and
description RETURNING the new row, fetchone, commit, return the row. -/
def create_item (s : DBState) (item : ItemCreate) : Outcome Item :=
  { result := Except.ok (createdRow s item)
    state := ⟨s.rows ++ [createdRow s item], s.nextId + 1⟩
    events := [DBEvent.execSQL insertSQL, DBEvent.commit] }

/-- The SET clause of update_item applied to one row: name and
description are overwritten, id is untouched. -/
def applySet (item : ItemCreate) (r : Item) : Item :=
  { r with name := item.name, description := item.description }

/-- update_item (app.py lines 126-140): UPDATE rows WHERE id = item_id
RETURNING the updated row, fetchone, commit; then, if no row was
returned, raise 404 "Item not found", else return the row. -/
def update_item (s : DBState) (item_id : Int) (item : ItemCreate) :
    Outcome Item :=
  let newRows := s.rows.map fun r => if r.id == item_id then applySet item r else r
  let s2 : DBState := ⟨newRows, s.nextId⟩
  let evs := [DBEvent.execSQL updateSQL, DBEvent.commit]
  match s.rows.find? (fun r => r.id == item_id) with
  | none => { result := Except.error ⟨404, "Item not found"⟩, state := s2, events := evs }
  | some r => { result := Except.ok (applySet item r), state := s2, events := evs }

/-- delete_item (app.py lines 142-153): DELETE rows WHERE id = item_id,
read the affected-row count, commit; then, if the count is 0, raise 404
"Item not found", else return the success message. -/
def delete_item (s : DBState) (item_id : Int) : Outcome MessageBody :=
  if s.rows.countP (fun r => r.id == item_id) == 0 then
    { result := Except.error ⟨404, "Item not found"⟩,
      state := ⟨s.rows.filter fun r => !(r.id == item_id), s.nextId⟩,
      events := [DBEvent.execSQL deleteSQL, DBEvent.commit] }
  else
    { result := Except.ok ⟨"Item deleted successfully"⟩,
      state := ⟨s.rows.filter fun r => !(r.id == item_id), s.nextId⟩,
      events := [DBEvent.execSQL deleteSQL, DBEvent.commit] }

/-- Invariant the backing store guarantees for the items table: every
row id was generated below the current sequence value, and ids are
unique across rows. -/
def Inv (s : DBState) : Prop :=
  (∀ r ∈ s.rows, r.id < s.nextId) ∧ (s.rows.map Item.id).Nodup

instance (s : DBState) : Decidable (Inv s) := by
  unfold Inv; infer_instance

/-- Database states reachable from a fresh table through the write
handlers of app.py. -/
inductive Reachable : DBState → Prop where
  | init : Reachable initialState
  | createStep (s : DBState) (item : ItemCreate) :
      Reachable s → Reachable (create_item s item).state
  | updateStep (s : DBState) (item_id : Int) (item : ItemCreate) :
      Reachable s → Reachable (update_item s item_id item).state
  | deleteStep (s : DBState) (item_id : Int) :
      Reachable s → Reachable (delete_item s item_id).state

/-- The digits of a decimal numeral read into a Nat, most significant
first. -/
def digitsToNat (l : List Char) : Nat :=
  l.foldl (fun acc c => acc * 10 + (c.toNat - 48)) 0

/-- A nonempty all-digit character sequence read as a Nat; anything
else is rejected. -/
def parseDigits (l : List Char) : Option Nat :=
  if l ≠ [] ∧ l.all Char.isDigit then some (digitsToNat l) else none

/-- Modelled from the spec: the coercion the HTTP routing layer applies
to the item_id path parameter of the Get, Update and Delete routes
(app.py declares item_id as int on lines 98, 127 and 143; the coercion
itself lives in the routing layer, not in src/). An optional sign
followed by decimal digits is an integer; any other raw path segment
is not coercible and yields none. -/
def parsePathInt (raw : String) : Option Int :=
  match raw.data with
  | '-' :: rest => (parseDigits rest).map (fun n => -(n : Int))
  | '+' :: rest => (parseDigits rest).map (fun n => (n : Int))
  | l => (parseDigits l).map (fun n => (n : Int))

/-- Modelled from the spec: the detail of the 422-class response the
routing layer produces on a validation failure. -/
def validationDetail : String := "validation error"

/-- A Create or Update request body as received: each field is either
present with a value or absent (an explicit null description and an
absent description both decode to no value). -/
structure RawItemBody where
  name : Option String
  description : Option String
deriving DecidableEq, Repr

/-- Modelled from the spec: the decoding the routing layer applies to a
Create or Update body into ItemCreate (app.py lines 73-78): name is
required, an absent name is a 422-class validation failure, and an
absent description falls back to the declared default None. -/
def decodeItemCreate (b : RawItemBody) : Except HTTPException ItemCreate :=
  match b.name with
  | none => Except.error ⟨422, validationDetail⟩
  | some n => Except.ok ⟨n, b.description⟩

/-- The Get route as dispatched: coerce the raw path parameter, and only
on success run the read_item handler; a coercion failure is rejected by
the routing layer with no database event at all. -/
def route_read_item (s : DBState) (raw : String) :
    Except HTTPException Item × List DBEvent :=
  match parsePathInt raw with
  | none => (Except.error ⟨422, validationDetail⟩, [])
  | some i => read_item s i

/-- The Update route as dispatched: coerce the raw path parameter and
decode the body, and only on success run the update_item handler. -/
def route_update_item (s : DBState) (raw : String) (b : RawItemBody) :
    Outcome Item :=
  match parsePathInt raw with
  | none => { result := Except.error ⟨422, validationDetail⟩, state := s, events := [] }
  | some i =>
    match decodeItemCreate b with
    | Except.error e => { result := Except.error e, state := s, events := [] }
    | Except.ok item => update_item s i item

/-- The Delete route as dispatched: coerce the raw path parameter, and
only on success run the delete_item handler. -/
def route_delete_item (s : DBState) (raw : String) : Outcome MessageBody :=
  match parsePathInt raw with
  | none => { result := Except.error ⟨422, validationDetail⟩, state := s, events := [] }
  | some i => delete_item s i

/-- The credential fields get_db_pool reads out of the secret fetched
from Secrets Manager (json.loads of the SecretString): host, dbname,
username and password are accessed by required key lookup, port by a
lookup defaulting to 5432; values are rendered into the conninfo
string, so each field is kept here in its rendered string form. -/
structure SecretData where
  host : String
  dbname : String
  username : String
  password : String
  port : Option String
deriving DecidableEq, Repr

/-- The environment get_db_pool runs in: the process environment
(os.environ.get), and the Secrets Manager fetch-and-parse as a function
of the SecretId (the DB_SECRET_NAME value) and the region. -/
structure WorldEnv where
  env : String → Option String
  secret : Option String → String → SecretData

/-- Python truthiness of an optional string, as tested by
the line 34 guard of app.py: None and the empty string are falsy. -/
def pyTruthy (v : Option String) : Bool :=
  match v with
  | none => false
  | some t => t != ""

/-- get_db_pool (app.py lines 28-60), reduced to the conninfo string it
builds: when os.environ.get of AWS_EXECUTION_ENV is truthy, fetch the
secret named by DB_SECRET_NAME in the AWS_REGION region (default
us-east-1) and build the conninfo from its fields with port defaulting
to 5432; otherwise build it from the DB_HOST, DB_NAME, DB_USER,
DB_PASSWORD and DB_PORT environment variables with local defaults. -/
def get_db_pool_conninfo (w : WorldEnv) : String :=
  if pyTruthy (w.env "AWS_EXECUTION_ENV") then
    let secret_name := w.env "DB_SECRET_NAME"
    let region := (w.env "AWS_REGION").getD "us-east-1"
    let c := w.secret secret_name region
    "host=" ++ c.host ++ " dbname=" ++ c.dbname ++ " user=" ++ c.username ++
      " password=" ++ c.password ++ " port=" ++ c.port.getD "5432"
  else
    let host := (w.env "DB_HOST").getD "localhost"
    let database := (w.env "DB_NAME").getD "postgres"
    let user := (w.env "DB_USER").getD "postgres"
    let password := (w.env "DB_PASSWORD").getD "postgres"
    let port := (w.env "DB_PORT").getD "5432"
    "host=" ++ host ++ " dbname=" ++ database ++ " user=" ++ user ++
      " password=" ++ password ++ " port=" ++ port

/-- The descriptor claim C7 prescribes for the environment-variable
branch, written from the words of the claim: built from DB_HOST,
DB_NAME, DB_USER, DB_PASSWORD, DB_PORT with defaults
localhost, postgres, postgres, postgres, 5432. -/
def specEnvDescriptor (w : WorldEnv) : String :=
  "host=" ++ (w.env "DB_HOST").getD "localhost" ++
    " dbname=" ++ (w.env "DB_NAME").getD "postgres" ++
    " user=" ++ (w.env "DB_USER").getD "postgres" ++
    " password=" ++ (w.env "DB_PASSWORD").getD "postgres" ++
    " port=" ++ (w.env "DB_PORT").getD "5432"

/-- The descriptor claim C7 prescribes for the serverless branch,
written from the words of the claim: built from the fetched secret
fields host, dbname, username, password, with port defaulting to 5432
if absent from the secret. -/
def specSecretDescriptor (w : WorldEnv) : String :=
  let c := w.secret (w.env "DB_SECRET_NAME") ((w.env "AWS_REGION").getD "us-east-1")
  "host=" ++ c.host ++ " dbname=" ++ c.dbname ++ " user=" ++ c.username ++
    " password=" ++ c.password ++ " port=" ++ c.port.getD "5432"

/-- An environment in which the serverless marker variable is set but
holds the empty string, and the secret differs from the env-variable
credentials. -/
def cexWorld : WorldEnv where
  env := fun k => if k = "AWS_EXECUTION_ENV" then some "" else none
  secret := fun _ _ => ⟨"sech", "secd", "secu", "secp", none⟩

/-- An environment in which the serverless marker is set to a nonempty
value, as the Lambda platform sets it. -/
def lambdaWorld : WorldEnv where
  env := fun k =>
    if k = "AWS_EXECUTION_ENV" then some "AWS_Lambda_python3.11"
    else if k = "DB_SECRET_NAME" then some "app-db-secret"
    else none
  secret := fun _ _ => ⟨"sech", "secd", "secu", "secp", some "6543"⟩

/-! Helper lemmas shared by the claim theorems. -/

theorem find?_none_of_no_id {rows : List Item} {item_id : Int}
    (h : ∀ r ∈ rows, r.id ≠ item_id) :
    rows.find? (fun r => r.id == item_id) = none := by
  rw [List.find?_eq_none]
  intro r hr
  simpa using h r hr

theorem update_rows_ids (rows : List Item) (item_id : Int) (item : ItemCreate) :
    (rows.map fun r => if r.id == item_id then applySet item r else r).map Item.id =
      rows.map Item.id := by
  rw [List.map_map]
  apply List.map_congr_left
  intro r _
  by_cases hc : r.id = item_id <;> simp [applySet, hc]

theorem update_item_state (s : DBState) (item_id : Int) (item : ItemCreate) :
    (update_item s item_id item).state =
      ⟨s.rows.map fun r => if r.id == item_id then applySet item r else r, s.nextId⟩ := by
  unfold update_item
  split <;> rfl

theorem update_item_events (s : DBState) (item_id : Int) (item : ItemCreate) :
    (update_item s item_id item).events = [DBEvent.execSQL updateSQL, DBEvent.commit] := by
  unfold update_item
  split <;> rfl

theorem delete_item_state (s : DBState) (item_id : Int) :
    (delete_item s item_id).state =
      ⟨s.rows.filter fun r => !(r.id == item_id), s.nextId⟩ := by
  unfold delete_item
  split <;> rfl

theorem delete_item_events (s : DBState) (item_id : Int) :
    (delete_item s item_id).events = [DBEvent.execSQL deleteSQL, DBEvent.commit] := by
  unfold delete_item
  split <;> rfl

theorem read_item_events (s : DBState) (item_id : Int) :
    (read_item s item_id).2 = [DBEvent.execSQL selectOneSQL] := by
  unfold read_item
  split <;> rfl

theorem reachable_inv {s : DBState} (h : Reachable s) : Inv s := by
  induction h with
  | init => exact ⟨by simp [initialState], by simp [initialState]⟩
  | createStep s item _ ih =>
    obtain ⟨hlt, hnd⟩ := ih
    have hx : s.nextId ∉ s.rows.map Item.id := by
      intro hmem
      obtain ⟨r, hr, hidr⟩ := List.mem_map.1 hmem
      exact absurd hidr (ne_of_lt (hlt r hr))
    constructor
    · intro r hr
      simp only [create_item] at hr ⊢
      rcases List.mem_append.1 hr with hmem | hmem
      · have := hlt r hmem
        omega
      · simp only [List.mem_singleton] at hmem
        subst hmem
        simp only [createdRow]
        omega
    · simp only [create_item, List.map_append, List.nodup_append]
      refine ⟨hnd, by simp, ?_⟩
      intro a ha
      simp only [createdRow, List.map_cons, List.map_nil, List.mem_singleton]
      intro he
      exact hx (he ▸ ha)
  | updateStep s item_id item _ ih =>
    obtain ⟨hlt, hnd⟩ := ih
    rw [update_item_state]
    constructor
    · intro r hr
      obtain ⟨r0, hr0, hfr⟩ := List.mem_map.1 hr
      have hid : r.id = r0.id := by
        subst hfr
        by_cases hc : r0.id = item_id <;> simp [applySet, hc]
      simpa [hid] using hlt r0 hr0
    · show ((s.rows.map fun r =>
          if r.id == item_id then applySet item r else r).map Item.id).Nodup
      rw [update_rows_ids]
      exact hnd
  | deleteStep s item_id _ ih =>
    obtain ⟨hlt, hnd⟩ := ih
    rw [delete_item_state]
    constructor
    · intro r hr
      exact hlt r (List.mem_filter.1 hr).1
    · exact List.Nodup.sublist (List.Sublist.map Item.id (List.filter_sublist s.rows)) hnd

/-! The claim theorems. -/

/-- C1: for every valid (name, optional description) pair and every
well-formed table state, create_item succeeds with a row whose name and
description equal the inputs, and read_item on the id of that row,
against the state create_item left behind, returns that same row. -/
theorem create_then_get (s : DBState) (item : ItemCreate) (h : Inv s) :
    (create_item s item).result = Except.ok (createdRow s item) ∧
    (createdRow s item).name = item.name ∧
    (createdRow s item).description = item.description ∧
    (read_item (create_item s item).state (createdRow s item).id).1 =
      Except.ok (createdRow s item) := by
  refine ⟨rfl, rfl, rfl, ?_⟩
  have hnone : s.rows.find? (fun r => r.id == (createdRow s item).id) = none :=
    find?_none_of_no_id (fun r hr => ne_of_lt (h.1 r hr))
  unfold read_item create_item
  simp [List.find?_append, hnone, List.find?_cons]

theorem create_then_get_witness :
    Inv ⟨[], 1⟩ ∧
    ((create_item ⟨[], 1⟩ ⟨"a", some "b"⟩).result =
        Except.ok (createdRow ⟨[], 1⟩ ⟨"a", some "b"⟩) ∧
      (createdRow ⟨[], 1⟩ ⟨"a", some "b"⟩).name = ItemCreate.name ⟨"a", some "b"⟩ ∧
      (createdRow ⟨[], 1⟩ ⟨"a", some "b"⟩).description =
        ItemCreate.description ⟨"a", some "b"⟩ ∧
      (read_item (create_item ⟨[], 1⟩ ⟨"a", some "b"⟩).state
          (createdRow ⟨[], 1⟩ ⟨"a", some "b"⟩).id).1 =
        Except.ok (createdRow ⟨[], 1⟩ ⟨"a", some "b"⟩)) :=
  ⟨by decide, create_then_get ⟨[], 1⟩ ⟨"a", some "b"⟩ (by decide)⟩

/-- C2: read_item on an id for which no row exists in the items table
raises HTTP 404 with detail Item not found, and issues only the SELECT
and no commit. -/
theorem get_missing_not_found (s : DBState) (item_id : Int)
    (h : ∀ r ∈ s.rows, r.id ≠ item_id) :
    read_item s item_id =
      (Except.error ⟨404, "Item not found"⟩, [DBEvent.execSQL selectOneSQL]) := by
  unfold read_item
  rw [find?_none_of_no_id h]

theorem get_missing_not_found_witness :
    (∀ r ∈ (⟨[⟨1, "a", none⟩], 2⟩ : DBState).rows, r.id ≠ 99999) ∧
    read_item ⟨[⟨1, "a", none⟩], 2⟩ 99999 =
      (Except.error ⟨404, "Item not found"⟩, [DBEvent.execSQL selectOneSQL]) :=
  ⟨by decide, get_missing_not_found ⟨[⟨1, "a", none⟩], 2⟩ 99999 (by decide)⟩

/-- C3: update_item on an id with no matching row raises HTTP 404 with
detail Item not found and leaves the items table exactly as it was: no
row is created or modified by the failed update. -/
theorem update_missing_not_found (s : DBState) (item_id : Int) (item : ItemCreate)
    (h : ∀ r ∈ s.rows, r.id ≠ item_id) :
    update_item s item_id item =
      { result := Except.error ⟨404, "Item not found"⟩, state := s,
        events := [DBEvent.execSQL updateSQL, DBEvent.commit] } := by
  obtain ⟨rows, nid⟩ := s
  have hmap : rows.map (fun r => if r.id == item_id then applySet item r else r) = rows := by
    have : ∀ r ∈ rows, (if r.id == item_id then applySet item r else r) = r := by
      intro r hr
      simp [h r hr]
    rw [List.map_congr_left this, List.map_id']
  unfold update_item
  rw [find?_none_of_no_id h, hmap]

theorem update_missing_not_found_witness :
    (∀ r ∈ (⟨[⟨1, "a", none⟩], 2⟩ : DBState).rows, r.id ≠ 7) ∧
    update_item ⟨[⟨1, "a", none⟩], 2⟩ 7 ⟨"b", some "c"⟩ =
      { result := Except.error ⟨404, "Item not found"⟩,
        state := ⟨[⟨1, "a", none⟩], 2⟩,
        events := [DBEvent.execSQL updateSQL, DBEvent.commit] } :=
  ⟨by decide, update_missing_not_found ⟨[⟨1, "a", none⟩], 2⟩ 7 ⟨"b", some "c"⟩ (by decide)⟩

/-- C4: delete_item on an id with no matching row raises 404; on an id
with a matching row it returns the success message, after which
read_item on that id raises 404 and a second delete_item on that id
raises 404 as well. -/
theorem delete_then_get_then_delete (s : DBState) (item_id : Int) :
    ((∀ r ∈ s.rows, r.id ≠ item_id) →
      (delete_item s item_id).result = Except.error ⟨404, "Item not found"⟩) ∧
    ((∃ r ∈ s.rows, r.id = item_id) →
      (delete_item s item_id).result = Except.ok ⟨"Item deleted successfully"⟩ ∧
      (read_item (delete_item s item_id).state item_id).1 =
        Except.error ⟨404, "Item not found"⟩ ∧
      (delete_item (delete_item s item_id).state item_id).result =
        Except.error ⟨404, "Item not found"⟩) := by
  have hfil : ∀ x ∈ s.rows.filter fun r => !(r.id == item_id), x.id ≠ item_id := by
    intro x hx
    have := (List.mem_filter.1 hx).2
    simpa using this
  constructor
  · intro h
    have hc : s.rows.countP (fun r => r.id == item_id) = 0 := by
      rw [List.countP_eq_zero]
      intro r hr
      simpa using h r hr
    unfold delete_item
    simp [hc]
  · rintro ⟨r, hr, hid⟩
    have hpos : 0 < s.rows.countP (fun r => r.id == item_id) :=
      List.countP_pos_iff.2 ⟨r, hr, by simp [hid]⟩
    have hne : ¬((s.rows.countP (fun r => r.id == item_id) == 0) = true) := by
      rw [beq_iff_eq]
      omega
    have hstate := delete_item_state s item_id
    refine ⟨?_, ?_, ?_⟩
    · unfold delete_item
      rw [if_neg hne]
    · rw [hstate]
      unfold read_item
      rw [find?_none_of_no_id hfil]
    · rw [hstate]
      have hc2 : ((s.rows.filter fun r => !(r.id == item_id)).countP
          (fun r => r.id == item_id) == 0) = true := by
        simp only [beq_iff_eq, List.countP_eq_zero]
        intro x hx
        simpa using hfil x hx
      unfold delete_item
      rw [if_pos hc2]

theorem delete_then_get_then_delete_witness :
    ((∀ r ∈ (⟨[], 1⟩ : DBState).rows, r.id ≠ 5) ∧
      (delete_item ⟨[], 1⟩ 5).result = Except.error ⟨404, "Item not found"⟩) ∧
    ((∃ r ∈ (⟨[⟨1, "a", none⟩], 2⟩ : DBState).rows, r.id = 1) ∧
      ((delete_item ⟨[⟨1, "a", none⟩], 2⟩ 1).result =
          Except.ok ⟨"Item deleted successfully"⟩ ∧
        (read_item (delete_item ⟨[⟨1, "a", none⟩], 2⟩ 1).state 1).1 =
          Except.error ⟨404, "Item not found"⟩ ∧
        (delete_item (delete_item ⟨[⟨1, "a", none⟩], 2⟩ 1).state 1).result =
          Except.error ⟨404, "Item not found"⟩)) :=
  ⟨⟨by decide, (delete_then_get_then_delete ⟨[], 1⟩ 5).1 (by decide)⟩,
   ⟨by decide, (delete_then_get_then_delete ⟨[⟨1, "a", none⟩], 2⟩ 1).2 (by decide)⟩⟩

/-- C5: against any state reachable through the handlers, read_items
returns exactly the rows of the items table, each row exactly once (the
returned list is duplicate free), and returns the empty list when the
table is empty. -/
theorem list_returns_table (s : DBState) (h : Reachable s) :
    (read_items s).1 = s.rows ∧ (read_items s).1.Nodup ∧
    (s.rows = [] → (read_items s).1 = []) := by
  refine ⟨rfl, ?_, fun he => by simpa [read_items] using he⟩
  exact List.Nodup.of_map Item.id (reachable_inv h).2

theorem list_returns_table_witness :
    Reachable (create_item initialState ⟨"a", none⟩).state ∧
    ((read_items (create_item initialState ⟨"a", none⟩).state).1 =
        (create_item initialState ⟨"a", none⟩).state.rows ∧
      (read_items (create_item initialState ⟨"a", none⟩).state).1.Nodup ∧
      ((create_item initialState ⟨"a", none⟩).state.rows = [] →
        (read_items (create_item initialState ⟨"a", none⟩).state).1 = [])) := by
  have hr : Reachable (create_item initialState ⟨"a", none⟩).state :=
    Reachable.createStep initialState ⟨"a", none⟩ Reachable.init
  exact ⟨hr, list_returns_table _ hr⟩

/-- C6: each write handler (create_item, update_item, delete_item)
issues exactly one commit, placed right after its single SQL statement,
while the read handlers (read_items, read_item) issue a single SQL
statement and no commit. -/
theorem commit_discipline (s : DBState) (item : ItemCreate) (n : Int) :
    (create_item s item).events = [DBEvent.execSQL insertSQL, DBEvent.commit] ∧
    (update_item s n item).events = [DBEvent.execSQL updateSQL, DBEvent.commit] ∧
    (delete_item s n).events = [DBEvent.execSQL deleteSQL, DBEvent.commit] ∧
    (read_items s).2 = [DBEvent.execSQL selectAllSQL] ∧
    (read_item s n).2 = [DBEvent.execSQL selectOneSQL] :=
  ⟨rfl, update_item_events s n item, delete_item_events s n, rfl, read_item_events s n⟩

/-- C10: delete_item on an id with no matching row still issues its
commit (the event trace is the DELETE followed by the commit) before
raising 404, and the whole outcome leaves the table identical to what
it was before the failed delete. -/
theorem delete_missing_commits_unchanged (s : DBState) (item_id : Int)
    (h : ∀ r ∈ s.rows, r.id ≠ item_id) :
    delete_item s item_id =
      { result := Except.error ⟨404, "Item not found"⟩, state := s,
        events := [DBEvent.execSQL deleteSQL, DBEvent.commit] } := by
  obtain ⟨rows, nid⟩ := s
  have hc : (rows.countP (fun r => r.id == item_id) == 0) = true := by
    simp only [beq_iff_eq, List.countP_eq_zero]
    intro r hr
    simpa using h r hr
  have hfil : rows.filter (fun r => !(r.id == item_id)) = rows := by
    rw [List.filter_eq_self]
    intro r hr
    simpa using h r hr
  unfold delete_item
  rw [if_pos hc, hfil]

theorem delete_missing_commits_unchanged_witness :
    (∀ r ∈ (⟨[⟨2, "b", some "d"⟩], 3⟩ : DBState).rows, r.id ≠ 9) ∧
    delete_item ⟨[⟨2, "b", some "d"⟩], 3⟩ 9 =
      { result := Except.error ⟨404, "Item not found"⟩,
        state := ⟨[⟨2, "b", some "d"⟩], 3⟩,
        events := [DBEvent.execSQL deleteSQL, DBEvent.commit] } :=
  ⟨by decide, delete_missing_commits_unchanged ⟨[⟨2, "b", some "d"⟩], 3⟩ 9 (by decide)⟩

/-- C7, counterexample: the claim as stated, quantified over every
environment, is false. In cexWorld the serverless marker variable
AWS_EXECUTION_ENV is set, but to the empty string; the claim then
requires the secret-based descriptor, while get_db_pool tests os
environ truthiness, finds the empty string falsy, and builds the
descriptor from the environment variables instead. -/
theorem credential_claim_counterexample :
    ¬ (∀ w : WorldEnv,
        ((w.env "AWS_EXECUTION_ENV").isSome = true →
          get_db_pool_conninfo w = specSecretDescriptor w) ∧
        (w.env "AWS_EXECUTION_ENV" = none →
          get_db_pool_conninfo w = specEnvDescriptor w)) := by
  intro hcl
  have h1 := (hcl cexWorld).1 (by decide)
  exact absurd h1 (by decide)

/-- C7, amended: when the serverless marker AWS_EXECUTION_ENV is unset
or set to the empty string, the connection descriptor is built from
DB_HOST, DB_NAME, DB_USER, DB_PASSWORD, DB_PORT with defaults
localhost, postgres, postgres, postgres, 5432; when it is set to a
nonempty value, the descriptor is built from the fetched secret fields
host, dbname, username, password, with port defaulting to 5432 if
absent from the secret. -/
theorem credential_resolution_branches (w : WorldEnv) :
    (pyTruthy (w.env "AWS_EXECUTION_ENV") = true →
      get_db_pool_conninfo w = specSecretDescriptor w) ∧
    (pyTruthy (w.env "AWS_EXECUTION_ENV") = false →
      get_db_pool_conninfo w = specEnvDescriptor w) := by
  constructor <;> intro h <;>
    simp [get_db_pool_conninfo, specSecretDescriptor, specEnvDescriptor, h]

theorem credential_resolution_branches_witness :
    (pyTruthy (lambdaWorld.env "AWS_EXECUTION_ENV") = true ∧
      get_db_pool_conninfo lambdaWorld = specSecretDescriptor lambdaWorld) ∧
    (pyTruthy (cexWorld.env "AWS_EXECUTION_ENV") = false ∧
      get_db_pool_conninfo cexWorld = specEnvDescriptor cexWorld) :=
  ⟨⟨by decide, (credential_resolution_branches lambdaWorld).1 (by decide)⟩,
   ⟨by decide, (credential_resolution_branches cexWorld).2 (by decide)⟩⟩

/-- C8: a Get, Update or Delete request whose item_id path segment is
not coercible to an integer is rejected by the routing layer with a
422-class validation error, the table is untouched, and the database
event trace is empty: no statement is executed and no connection is
ever used for the request. -/
theorem invalid_path_param_rejected (s : DBState) (raw : String) (b : RawItemBody)
    (h : parsePathInt raw = none) :
    route_read_item s raw = (Except.error ⟨422, validationDetail⟩, ([] : List DBEvent)) ∧
    route_update_item s raw b =
      { result := Except.error ⟨422, validationDetail⟩, state := s, events := [] } ∧
    route_delete_item s raw =
      { result := Except.error ⟨422, validationDetail⟩, state := s, events := [] } := by
  unfold route_read_item route_update_item route_delete_item
  rw [h]
  exact ⟨rfl, rfl, rfl⟩

theorem invalid_path_param_rejected_witness :
    parsePathInt "abc" = none ∧
    (route_read_item ⟨[⟨1, "a", none⟩], 2⟩ "abc" =
        (Except.error ⟨422, validationDetail⟩, ([] : List DBEvent)) ∧
      route_update_item ⟨[⟨1, "a", none⟩], 2⟩ "abc" ⟨some "b", none⟩ =
        { result := Except.error ⟨422, validationDetail⟩,
          state := ⟨[⟨1, "a", none⟩], 2⟩, events := [] } ∧
      route_delete_item ⟨[⟨1, "a", none⟩], 2⟩ "abc" =
        { result := Except.error ⟨422, validationDetail⟩,
          state := ⟨[⟨1, "a", none⟩], 2⟩, events := [] }) :=
  ⟨by decide, invalid_path_param_rejected ⟨[⟨1, "a", none⟩], 2⟩ "abc"
    ⟨some "b", none⟩ (by decide)⟩

/-- C9: a Create or Update body that omits the description field
decodes with description defaulted to none rather than failing;
create_item then succeeds and both returns and stores the row with a
null description, and update_item on an existing id succeeds, returns
a row with a null description, and every stored row under that id has
a null description. -/
theorem omitted_description_defaults (s : DBState) (n : String) (item_id : Int)
    (h : ∃ r ∈ s.rows, r.id = item_id) :
    decodeItemCreate ⟨some n, none⟩ = Except.ok ⟨n, none⟩ ∧
    (create_item s ⟨n, none⟩).result = Except.ok ⟨s.nextId, n, none⟩ ∧
    (⟨s.nextId, n, none⟩ : Item) ∈ (create_item s ⟨n, none⟩).state.rows ∧
    (∃ r, (update_item s item_id ⟨n, none⟩).result = Except.ok r ∧
      r.description = none) ∧
    (∀ r ∈ (update_item s item_id ⟨n, none⟩).state.rows,
      r.id = item_id → r.description = none) := by
  obtain ⟨r0, hr0, hid0⟩ := h
  refine ⟨rfl, rfl, ?_, ?_, ?_⟩
  · simp [create_item, createdRow]
  · have hsome : (s.rows.find? (fun r => r.id == item_id)).isSome := by
      rw [List.find?_isSome]
      exact ⟨r0, hr0, by simp [hid0]⟩
    obtain ⟨r1, hr1⟩ := Option.isSome_iff_exists.1 hsome
    refine ⟨applySet ⟨n, none⟩ r1, ?_, rfl⟩
    unfold update_item
    rw [hr1]
  · intro r hr hrid
    rw [update_item_state] at hr
    obtain ⟨r2, hr2, hfr⟩ := List.mem_map.1 hr
    by_cases hc : r2.id = item_id
    · simp only [hc, beq_self_eq_true, if_true] at hfr
      subst hfr
      rfl
    · simp only [beq_iff_eq, hc, if_false] at hfr
      subst hfr
      exact absurd hrid hc

theorem omitted_description_defaults_witness :
    (∃ r ∈ (⟨[⟨1, "a", some "x"⟩], 2⟩ : DBState).rows, r.id = 1) ∧
    (decodeItemCreate ⟨some "b", none⟩ = Except.ok ⟨"b", none⟩ ∧
      (create_item ⟨[⟨1, "a", some "x"⟩], 2⟩ ⟨"b", none⟩).result =
        Except.ok ⟨2, "b", none⟩ ∧
      (⟨2, "b", none⟩ : Item) ∈
        (create_item ⟨[⟨1, "a", some "x"⟩], 2⟩ ⟨"b", none⟩).state.rows ∧
      (∃ r, (update_item ⟨[⟨1, "a", some "x"⟩], 2⟩ 1 ⟨"b", none⟩).result =
          Except.ok r ∧ r.description = none) ∧
      (∀ r ∈ (update_item ⟨[⟨1, "a", some "x"⟩], 2⟩ 1 ⟨"b", none⟩).state.rows,
        r.id = 1 → r.description = none)) :=
  ⟨⟨⟨1, "a", some "x"⟩, by decide, by decide⟩,
    omitted_description_defaults ⟨[⟨1, "a", some "x"⟩], 2⟩ "b" 1
      ⟨⟨1, "a", some "x"⟩, by decide, by decide⟩⟩

end GlogApp
